import Mathlib

/-!
Verification of the orchestration core and adapters of the
ai-document-processor pipeline (Azure Durable Functions app).

Strings from the Python source are modelled as lists of Unicode code
points (`List Nat`); `strC` converts a Lean string literal to that
representation. Python `str.lower()` is modelled on the ASCII range
(all string data handled by the pipeline is ASCII).
-/

/-- Code points of a string literal. -/
def strC (s : String) : List Nat := s.toList.map Char.toNat

/-- Python `str.lower()` on one code point (ASCII range). -/
def pyLowerCode (c : Nat) : Nat := if 65 ≤ c ∧ c ≤ 90 then c + 32 else c

/-- Python `str.lower()` on a whole string. -/
def pyLower (s : List Nat) : List Nat := s.map pyLowerCode

/-- Python `str.split('.')`: splits on every dot (code point 46);
`splitOnDot [] = [[]]`, matching `"".split('.') == [""]`. -/
def splitOnDot : List Nat → List (List Nat)
  | [] => [[]]
  | c :: rest =>
    if c = 46 then [] :: splitOnDot rest
    else
      match splitOnDot rest with
      | [] => [[c]]
      | seg :: segs => (c :: seg) :: segs

/-- `function_app.py` line 123:
`file_extension = blob_name.lower().split('.')[-1] if '.' in blob_name else ""`. -/
def fileExtension (name : List Nat) : List Nat :=
  if 46 ∈ name then (splitOnDot (pyLower name)).getLastD [] else []

/-- `function_app.py` line 125. -/
def audio_extensions : List (List Nat) :=
  [strC "wav", strC "mp3", strC "opus", strC "ogg", strC "flac",
   strC "wma", strC "aac", strC "webm"]

/-- `function_app.py` line 127. -/
def document_extensions : List (List Nat) :=
  [strC "pdf", strC "docx", strC "doc", strC "xlsx", strC "pptx",
   strC "jpg", strC "jpeg", strC "png", strC "tiff", strC "bmp"]

theorem fileExtension_upper_eval : fileExtension (strC "CALL.WAV") = strC "wav" := by
  decide

theorem fileExtension_no_dot_eval : fileExtension (strC "report") = [] := by
  decide

theorem wav_is_audio_eval : strC "wav" ∈ audio_extensions := by
  decide

/-! ## Orchestration core (`process_blob`, `function_app.py` lines 115-195) -/

/-- The configuration values read by the orchestrator: the two feature
toggles (resolved through `config.get_value(..., "false")`) and the
`FINAL_OUTPUT_CONTAINER` name. -/
structure OrchConfig where
  aoai_multi_modal : List Nat
  ai_vision_enabled : List Nat
  final_output_container : List Nat

/-- `config.get_value("AOAI_MULTI_MODAL", "false").lower() == "true"`
(`function_app.py` line 138). -/
def multimodalEnabled (cfg : OrchConfig) : Prop :=
  pyLower cfg.aoai_multi_modal = strC "true"

instance (cfg : OrchConfig) : Decidable (multimodalEnabled cfg) := by
  unfold multimodalEnabled; infer_instance

/-- `config.get_value("AI_VISION_ENABLED", "false").lower() == "true"`
(`function_app.py` line 149). -/
def visionEnabled (cfg : OrchConfig) : Prop :=
  pyLower cfg.ai_vision_enabled = strC "true"

instance (cfg : OrchConfig) : Decidable (visionEnabled cfg) := by
  unfold visionEnabled; infer_instance

/-- The blob descriptor handed to the orchestrator (`BlobMetadata.to_dict()` /
the HTTP trigger's `blob_input`): name, container, uri. -/
structure BlobInput where
  name : List Nat
  container : List Nat
  uri : List Nat

/-- Which extraction branch of the `if/elif` chain at
`function_app.py` lines 138-169 runs. -/
inductive ExtractPath where
  | multimodal
  | vision
  | speech
  | docintel
  | unsupported
deriving DecidableEq

/-- The branch selected by the `if/elif` chain (`function_app.py`
lines 138-162), in source order. -/
def selectPath (cfg : OrchConfig) (name : List Nat) : ExtractPath :=
  if multimodalEnabled cfg ∧ fileExtension name ∈ document_extensions then .multimodal
  else if visionEnabled cfg then .vision
  else if fileExtension name ∈ audio_extensions then .speech
  else if fileExtension name ∈ document_extensions then .docintel
  else .unsupported

/-- A Python value appearing in the orchestrator's returned dict:
either a string or a nested dict. -/
inductive Val where
  | vs (v : List Nat)
  | vobj (fields : List (String × Val))

/-- Python `dict` lookup on the modelled records (first binding wins,
as in a Python dict built from distinct literal keys). -/
def lookupField (k : String) : List (String × Val) → Option Val
  | [] => none
  | (k', v) :: rest => if k' = k then some v else lookupField k rest

/-- `blob_input` as it appears inside the returned dicts. -/
def blobToVal (b : BlobInput) : Val :=
  .vobj [("name", .vs b.name), ("container", .vs b.container), ("uri", .vs b.uri)]

/-- The external activities, as functions from their inputs to the result
they produce when they succeed.  Retry behaviour of
`call_activity_with_retry` is modelled separately (see `retryRun`);
here each listed activity call is a completed, successful call. -/
structure ActivityEnv where
  callAoaiMultiModal : BlobInput → List Nat → List Nat
  speechToText : BlobInput → List Nat
  runDocIntel : BlobInput → List Nat
  callAoai : List Nat → List Nat → List Nat
  writeToBlob : List Nat → List Nat → List Nat → List Nat

/-- Steps 2 and 3 of `process_blob` (`function_app.py` lines 171-195):
feed `text_result` into `callAoai`, write the output via `writeToBlob`,
and return the final dict.  `log` accumulates the activity names invoked
so far; the returned list is the full invocation log. -/
def enrichAndPersist (cfg : OrchConfig) (env : ActivityEnv)
    (instanceId : List Nat) (blob : BlobInput) (text_result : List Nat)
    (log : List String) : Option (List (String × Val)) × List String :=
  let aoai_output := env.callAoai text_result instanceId
  let task_result := env.writeToBlob aoai_output blob.name cfg.final_output_container
  (some [("blob", blobToVal blob),
         ("text_result", .vs aoai_output),
         ("task_result", .vs task_result)],
   log ++ ["callAoai", "writeToBlob"])

/-- The `process_blob` orchestrator (`function_app.py` lines 115-195).
Returns the orchestrator's result dict (`none` models the Python
`NameError` raised on the vision branch, where `pass` leaves
`text_result` unbound) together with the list of external activity
invocations, in order. -/
def process_blob (cfg : OrchConfig) (env : ActivityEnv)
    (instanceId : List Nat) (blob : BlobInput) :
    Option (List (String × Val)) × List String :=
  match selectPath cfg blob.name with
  | .multimodal =>
      enrichAndPersist cfg env instanceId blob
        (env.callAoaiMultiModal blob instanceId) ["callAoaiMultiModal"]
  | .vision => (none, [])
  | .speech =>
      enrichAndPersist cfg env instanceId blob
        (env.speechToText blob) ["speechToText"]
  | .docintel =>
      enrichAndPersist cfg env instanceId blob
        (env.runDocIntel blob) ["runDocIntel"]
  | .unsupported =>
      (some [("blob", blobToVal blob),
             ("error", .vs (strC "Unsupported file type: " ++ fileExtension blob.name)),
             ("status", .vs (strC "skipped"))],
       [])

/-! ## Retry policy (`function_app.py` lines 130-135) -/

/-- The `RetryOptions` constructed at `function_app.py` lines 132-135. -/
structure RetryOptions where
  first_retry_interval_in_milliseconds : Nat
  max_number_of_attempts : Nat

/-- `RetryOptions(first_retry_interval_in_milliseconds=5000, max_number_of_attempts=5)`. -/
def retry_options : RetryOptions :=
  { first_retry_interval_in_milliseconds := 5000, max_number_of_attempts := 5 }

/-- Result of running one activity call under the retry policy:
either success, with the number of attempts made and the list of
backoff delays (in milliseconds) inserted between consecutive attempts,
or a fatal failure after the recorded number of attempts. -/
inductive RetryResult where
  | success (attempts : Nat) (backoffs : List Nat)
  | fatal (attempts : Nat)
deriving DecidableEq

/-- Modelled from the spec: the durable-functions retry executor behind
`call_activity_with_retry` is library code not present in this
repository; per the spec's retry policy it makes up to
`max_number_of_attempts` attempts, waiting the fixed
`first_retry_interval_in_milliseconds` between consecutive attempts
(no backoff coefficient is configured).  `succeeds k` says whether the
`k`-th attempt (0-based) succeeds; `remaining` counts attempts still
allowed. -/
def retryGo (interval : Nat) (succeeds : Nat → Bool) :
    Nat → Nat → RetryResult
  | 0, k => .fatal k
  | remaining + 1, k =>
    if succeeds k then .success (k + 1) (List.replicate k interval)
    else retryGo interval succeeds remaining (k + 1)

/-- Run one activity call under the given retry options. -/
def retryRun (opts : RetryOptions) (succeeds : Nat → Bool) : RetryResult :=
  retryGo opts.first_retry_interval_in_milliseconds succeeds
    opts.max_number_of_attempts 0

/-! ## Document/PII adapter poll loop (`function_app-new.py` lines 117-198) -/

/-- Outcome of the document-analysis poll loop: a terminal status
observed at the given elapsed time, or a timeout reported at the given
elapsed time. -/
inductive DocPollResult where
  | terminal (status : List Nat) (elapsed : Nat)
  | timedOut (elapsed : Nat)
deriving DecidableEq

/-- `max_wait_time = 300` (`function_app-new.py` line 117). -/
def max_wait_time : Nat := 300

/-- The terminal statuses checked at `function_app-new.py` line 127. -/
def docTerminalStatuses : List (List Nat) :=
  [strC "succeeded", strC "failed", strC "cancelled"]

/-- The poll loop of `analyze_document_blob` (`function_app-new.py`
lines 120-198): while less than `max_wait_time` has elapsed, poll the
job status; stop on a terminal status, otherwise `time.sleep(2)` and
poll again; when the wall-clock guard fails, the `while`/`else` branch
reports a timeout.  `statuses i` is the status returned by the `i`-th
poll; `elapsed` is the wall-clock time since `start_time`, advancing by
the 2-second sleep. -/
def docPoll (statuses : Nat → List Nat) (i : Nat) (elapsed : Nat) : DocPollResult :=
  if _h : elapsed < max_wait_time then
    let st := statuses i
    if st ∈ docTerminalStatuses then .terminal st elapsed
    else docPoll statuses (i + 1) (elapsed + 2)
  else .timedOut elapsed
termination_by max_wait_time - elapsed

/-! ## Speech adapter (`activities/speechToText.py`) -/

/-- One response of the transcription status endpoint, as used by
`speechToText.py`: its `status` field, and the list of result-file
content URLs reachable through `links`/`files` (each element models
`values[i]['links']['contentUrl']`). -/
structure TransStatus where
  status : List Nat
  fileContentUrls : List (List Nat)

/-- One result-file content body: its `combinedRecognizedPhrases`
entries, keeping only the `display` field used by the adapter. -/
structure TransContent where
  combinedRecognizedPhrases : List (List Nat)

/-- `wait_for_transcription` (`speechToText.py` lines 13-31): poll until
the status is `'Succeeded'` or `'Failed'`, returning that status
response; on any other status, sleep `check_interval` (10) seconds and
poll again.  `statuses i` is the `i`-th poll response; `fuel` bounds the
number of polls we observe (the Python loop itself is unbounded), with
`none` meaning the loop was still polling after `fuel` polls. -/
def wait_for_transcription (statuses : Nat → TransStatus) :
    Nat → Nat → Option TransStatus
  | 0, _ => none
  | fuel + 1, i =>
    let st := statuses i
    if st.status = strC "Succeeded" then some st
    else if st.status = strC "Failed" then some st
    else wait_for_transcription statuses fuel (i + 1)

/-- The result-fetch tail of `run` (`speechToText.py` lines 75-83): take
the first entry of the files list, fetch its content, and take
`combinedRecognizedPhrases[0]['display']`.  `none` models the Python
`IndexError` on an empty list. -/
def fetchTranscriptionText (files : List (List Nat))
    (fetch : List Nat → TransContent) : Option (List Nat) :=
  match files with
  | [] => none
  | f :: _ =>
    match (fetch f).combinedRecognizedPhrases with
    | [] => none
    | p :: _ => some p

/-- The poll-and-fetch portion of `run` (`speechToText.py` lines 75-83):
wait for the transcription, then extract the text from the first result
file. -/
def speechRunResult (statuses : Nat → TransStatus)
    (fetch : List Nat → TransContent) (fuel : Nat) : Option (List Nat) :=
  match wait_for_transcription statuses fuel 0 with
  | none => none
  | some fin => fetchTranscriptionText fin.fileContentUrls fetch

/-! ## Redacted-artifact selection (`function_app-new.py` lines 139-146) -/

/-- One entry of `documents[0]['targets']`: its `location` field. -/
structure DocTarget where
  location : List Nat
deriving DecidableEq

/-- `location.endswith(".json")`. -/
def endsWithJson (location : List Nat) : Bool :=
  List.isSuffixOf (strC ".json") location

/-- The `for target in targets` loop at `function_app-new.py`
lines 141-146: starting from `redacted_pdf_url = None`, take the first
target whose location does not end in `".json"` and `break`. -/
def findRedacted : List DocTarget → Option (List Nat)
  | [] => none
  | t :: ts =>
    if ¬ endsWithJson t.location then some t.location
    else findRedacted ts

/-- The same selection stated in the spec's words: the first target
whose location does not end in the JSON suffix, via `List.find?`. -/
def specFindRedacted (targets : List DocTarget) : Option (List Nat) :=
  (targets.find? fun t => ¬ endsWithJson t.location).map DocTarget.location

/-! ## HTTP trigger (`function_app.py` lines 77-111) -/

/-- A parsed Python JSON value, as returned by `req.get_json()`. -/
inductive PyJson where
  | jnull
  | jbool (b : Bool)
  | jnum (n : Int)
  | jstr (s : List Nat)
  | jarr (items : List PyJson)
  | jobj (fields : List (String × PyJson))

/-- What `start_orchestrator_http` sends back: a plain HTTP response
with a status code and body, the check-status response built by
`client.create_check_status_response`, or an unhandled Python
exception escaping the handler. -/
inductive HttpOutcome where
  | plain (statusCode : Nat) (body : List Nat)
  | checkStatus (instanceId : Nat)
  | pyError

/-- `start_orchestrator_http` (`function_app.py` lines 79-111).
`parsed` is the result of `req.get_json()`: `none` when the body is not
valid JSON (the `ValueError` caught at line 96).  On a JSON object,
`body.get("name")`/`body.get("uri")` succeed (possibly `None`) and one
orchestration is started; on any other valid JSON value, `body.get`
raises `AttributeError`, which no `except` clause catches.  `newId` is
the instance id `client.start_new` would mint.  Returns the response
and the number of orchestration instances started. -/
def start_orchestrator_http (newId : Nat) (parsed : Option PyJson) :
    HttpOutcome × Nat :=
  match parsed with
  | none => (.plain 400 (strC "Invalid JSON."), 0)
  | some (.jobj _) => (.checkStatus newId, 1)
  | some _ => (.pyError, 0)

/-! ## Concrete instances used to exercise the theorems -/

/-- A configuration with both feature toggles off (their defaults). -/
def wCfg : OrchConfig :=
  { aoai_multi_modal := strC "false",
    ai_vision_enabled := strC "false",
    final_output_container := strC "gold" }

/-- A configuration with the multimodal toggle set to `"True"`. -/
def wCfgMM : OrchConfig :=
  { aoai_multi_modal := strC "True",
    ai_vision_enabled := strC "false",
    final_output_container := strC "gold" }

/-- A concrete activity environment in which every activity succeeds. -/
def wEnv : ActivityEnv :=
  { callAoaiMultiModal := fun _ _ => strC "multimodal text",
    speechToText := fun _ => strC "hello world",
    runDocIntel := fun _ => strC "document text",
    callAoai := fun t _ => strC "Summary: " ++ t,
    writeToBlob := fun _ n _ => strC "final/" ++ n }

/-- The audio blob of the spec's end-to-end scenario. -/
def wavBlob : BlobInput :=
  { name := strC "call_42.wav", container := strC "bronze",
    uri := strC "https://x/bronze/call_42.wav" }

/-- The unsupported blob of the spec's end-to-end scenario. -/
def xyzBlob : BlobInput :=
  { name := strC "report.xyz", container := strC "bronze", uri := strC "u" }

/-- A document blob. -/
def pdfBlob : BlobInput :=
  { name := strC "report.pdf", container := strC "bronze", uri := strC "u" }

/-! ## Case-insensitivity of the extension (claim C9) -/

theorem pyLowerCode_eq_dot_iff (c : Nat) : pyLowerCode c = 46 ↔ c = 46 := by
  unfold pyLowerCode
  split <;> omega

theorem splitOnDot_pyLower (s : List Nat) :
    splitOnDot (pyLower s) = (splitOnDot s).map pyLower := by
  induction s with
  | nil => rfl
  | cons c rest ih =>
    show splitOnDot (pyLowerCode c :: pyLower rest) = _
    by_cases hc : c = 46
    · have h46 : pyLowerCode c = 46 := by rw [hc]; decide
      rw [splitOnDot, if_pos h46, ih, splitOnDot, if_pos hc]
      rfl
    · have hn : ¬ pyLowerCode c = 46 := fun h => hc ((pyLowerCode_eq_dot_iff c).mp h)
      rw [splitOnDot, if_neg hn, ih]
      conv_rhs => rw [splitOnDot, if_neg hc]
      cases splitOnDot rest with
      | nil => rfl
      | cons seg segs => rfl

theorem getLastD_map_pyLower (l : List (List Nat)) (d : List Nat) :
    (l.map pyLower).getLastD (pyLower d) = pyLower (l.getLastD d) := by
  induction l generalizing d with
  | nil => rfl
  | cons a t ih =>
    rw [List.map_cons, List.getLastD_cons, List.getLastD_cons, ih a]

/-- C9: classification is case-insensitive in the extension — the code
lowercases the whole filename before splitting on dots, which is the
same as lowercasing the final dot-separated segment; in particular
`'CALL.WAV'` selects the same path as `'call.wav'` under every
configuration. -/
theorem extension_case_insensitive (name : List Nat) :
    fileExtension name =
      (if 46 ∈ name then pyLower ((splitOnDot name).getLastD []) else [])
    ∧ ∀ cfg : OrchConfig,
        selectPath cfg (strC "CALL.WAV") = selectPath cfg (strC "call.wav") := by
  constructor
  · unfold fileExtension
    split
    · rw [splitOnDot_pyLower]
      exact getLastD_map_pyLower (splitOnDot name) []
    · rfl
  · intro cfg
    have h : fileExtension (strC "CALL.WAV") = fileExtension (strC "call.wav") := by
      decide
    unfold selectPath
    rw [h]

/-! ## Multimodal preference (claim C5) -/

/-- C5: when the multimodal toggle (lowercased) equals `"true"` and the
file has a document extension, the multimodal branch is selected — the
`callAoaiMultiModal` activity is invoked and `runDocIntel` is not. -/
theorem multimodal_preferred (cfg : OrchConfig) (env : ActivityEnv)
    (iid : List Nat) (blob : BlobInput)
    (hm : multimodalEnabled cfg)
    (hd : fileExtension blob.name ∈ document_extensions) :
    selectPath cfg blob.name = .multimodal ∧
    (process_blob cfg env iid blob).2 =
      ["callAoaiMultiModal", "callAoai", "writeToBlob"] ∧
    "runDocIntel" ∉ (process_blob cfg env iid blob).2 := by
  have hp : selectPath cfg blob.name = .multimodal := by
    unfold selectPath
    rw [if_pos ⟨hm, hd⟩]
  have hlog : (process_blob cfg env iid blob).2 =
      ["callAoaiMultiModal", "callAoai", "writeToBlob"] := by
    simp [process_blob, hp, enrichAndPersist]
  refine ⟨hp, hlog, ?_⟩
  rw [hlog]
  simp

theorem multimodal_preferred_witness :
    selectPath wCfgMM pdfBlob.name = .multimodal ∧
    (process_blob wCfgMM wEnv (strC "i1") pdfBlob).2 =
      ["callAoaiMultiModal", "callAoai", "writeToBlob"] ∧
    "runDocIntel" ∉ (process_blob wCfgMM wEnv (strC "i1") pdfBlob).2 :=
  multimodal_preferred wCfgMM wEnv (strC "i1") pdfBlob (by decide) (by decide)

/-! ## Classification dispatch (claim C1) -/

/-- C1: with both feature toggles at their default (not `"true"` once
lowercased), the orchestrator dispatches on the filename extension:
an audio extension invokes the speech-transcription activity, a
document extension invokes the document-extraction activity, and any
other extension (or none) yields the `skipped` outcome with error
`"Unsupported file type: <ext>"` and no activity invocations. -/
theorem classification_dispatch (cfg : OrchConfig) (env : ActivityEnv)
    (iid : List Nat) (blob : BlobInput)
    (hm : ¬ multimodalEnabled cfg) (hv : ¬ visionEnabled cfg) :
    (fileExtension blob.name ∈ audio_extensions →
      (process_blob cfg env iid blob).2 =
        ["speechToText", "callAoai", "writeToBlob"]) ∧
    (fileExtension blob.name ∈ document_extensions →
      (process_blob cfg env iid blob).2 =
        ["runDocIntel", "callAoai", "writeToBlob"]) ∧
    (fileExtension blob.name ∉ audio_extensions →
      fileExtension blob.name ∉ document_extensions →
      process_blob cfg env iid blob =
        (some [("blob", blobToVal blob),
               ("error", .vs (strC "Unsupported file type: " ++ fileExtension blob.name)),
               ("status", .vs (strC "skipped"))],
         [])) := by
  have hmm : ¬ (multimodalEnabled cfg ∧ fileExtension blob.name ∈ document_extensions) :=
    fun h => hm h.1
  have hdisj : ∀ e ∈ document_extensions, e ∉ audio_extensions := by decide
  refine ⟨?_, ?_, ?_⟩
  · intro ha
    have hp : selectPath cfg blob.name = .speech := by
      unfold selectPath
      rw [if_neg hmm, if_neg hv, if_pos ha]
    simp [process_blob, hp, enrichAndPersist]
  · intro hd
    have hp : selectPath cfg blob.name = .docintel := by
      unfold selectPath
      rw [if_neg hmm, if_neg hv, if_neg (hdisj _ hd), if_pos hd]
    simp [process_blob, hp, enrichAndPersist]
  · intro ha hd
    have hp : selectPath cfg blob.name = .unsupported := by
      unfold selectPath
      rw [if_neg hmm, if_neg hv, if_neg ha, if_neg hd]
    simp [process_blob, hp]

theorem classification_dispatch_witness :
    process_blob wCfg wEnv (strC "i1") xyzBlob =
      (some [("blob", blobToVal xyzBlob),
             ("error", .vs (strC "Unsupported file type: " ++ fileExtension xyzBlob.name)),
             ("status", .vs (strC "skipped"))],
       []) :=
  (classification_dispatch wCfg wEnv (strC "i1") xyzBlob
    (by decide) (by decide)).2.2 (by decide) (by decide)

/-! ## Successful-run outcome (claim C6) -/

/-- C6 counterexample: a run in which extraction, enrichment and
persistence all succeed (the speech path for `call_42.wav` with every
activity succeeding) returns a result dict, but that dict has no
`"status"` key at all — in particular it does not contain
`status = 'completed'` as the claim states.  The outer `some` shows the
run returned a record; the inner `none` is the `"status"` lookup on it. -/
theorem success_status_counterexample :
    ((process_blob wCfg wEnv (strC "i1") wavBlob).1.map (lookupField "status")) =
      some none := rfl

/-- C6 amended: on a run where extraction (whichever of the three
extraction activities ran), enrichment and persistence all succeed, the
returned dict bundles the original descriptor under `"blob"`, the
enrichment output under `"text_result"` and the persistence result
under `"task_result"`, and carries no `"status"` field. -/
theorem success_outcome_shape (cfg : OrchConfig) (env : ActivityEnv)
    (iid : List Nat) (blob : BlobInput) (text_result : List Nat)
    (h : (selectPath cfg blob.name = .multimodal ∧
            text_result = env.callAoaiMultiModal blob iid)
       ∨ (selectPath cfg blob.name = .speech ∧
            text_result = env.speechToText blob)
       ∨ (selectPath cfg blob.name = .docintel ∧
            text_result = env.runDocIntel blob)) :
    (process_blob cfg env iid blob).1 =
      some [("blob", blobToVal blob),
            ("text_result", .vs (env.callAoai text_result iid)),
            ("task_result", .vs (env.writeToBlob (env.callAoai text_result iid)
                blob.name cfg.final_output_container))] ∧
    ((process_blob cfg env iid blob).1.map (lookupField "status")) = some none := by
  have hres : (process_blob cfg env iid blob).1 =
      some [("blob", blobToVal blob),
            ("text_result", .vs (env.callAoai text_result iid)),
            ("task_result", .vs (env.writeToBlob (env.callAoai text_result iid)
                blob.name cfg.final_output_container))] := by
    rcases h with ⟨hp, ht⟩ | ⟨hp, ht⟩ | ⟨hp, ht⟩ <;>
      rw [ht] <;> simp [process_blob, hp, enrichAndPersist]
  refine ⟨hres, ?_⟩
  rw [hres]
  rfl

theorem success_outcome_shape_witness :
    (process_blob wCfg wEnv (strC "i1") wavBlob).1 =
      some [("blob", blobToVal wavBlob),
            ("text_result", .vs (wEnv.callAoai (wEnv.speechToText wavBlob) (strC "i1"))),
            ("task_result", .vs (wEnv.writeToBlob
                (wEnv.callAoai (wEnv.speechToText wavBlob) (strC "i1"))
                wavBlob.name wCfg.final_output_container))] :=
  (success_outcome_shape wCfg wEnv (strC "i1") wavBlob (wEnv.speechToText wavBlob)
    (Or.inr (Or.inl ⟨by decide, rfl⟩))).1

/-! ## Retry policy (claim C2) -/

/-- C2: under the configured retry options (5000 ms fixed backoff, at
most 5 attempts), a call that fails transiently on its first `N`
attempts and then succeeds completes after exactly `N + 1` attempts
when `N < 5`, with every backoff between consecutive attempts at least
5000 ms; a call that fails on every attempt is reported fatal after
exactly 5 attempts. -/
theorem retry_policy (N : Nat) :
    (N < 5 →
      retryRun retry_options (fun k => decide (N ≤ k)) =
        .success (N + 1) (List.replicate N 5000) ∧
      ∀ b ∈ List.replicate N 5000, 5000 ≤ b) ∧
    retryRun retry_options (fun _ => false) = .fatal 5 := by
  constructor
  · intro hN
    constructor
    · interval_cases N <;> decide
    · intro b hb
      rw [List.eq_of_mem_replicate hb]
  · decide

theorem retry_policy_witness :
    retryRun retry_options (fun k => decide (3 ≤ k)) =
      .success 4 (List.replicate 3 5000) :=
  ((retry_policy 3).1 (by decide)).1

/-! ## Bounded document polling (claim C3) -/

theorem docPoll_no_terminal (statuses : Nat → List Nat)
    (h : ∀ i, statuses i ∉ docTerminalStatuses) :
    ∀ fuel i elapsed, max_wait_time - elapsed ≤ 2 * fuel →
      elapsed % 2 = 0 → elapsed ≤ max_wait_time →
      docPoll statuses i elapsed = .timedOut max_wait_time := by
  intro fuel
  induction fuel with
  | zero =>
    intro i elapsed hfuel _ hle
    have he : elapsed = max_wait_time := by
      unfold max_wait_time at *
      omega
    rw [docPoll, dif_neg (by omega : ¬ elapsed < max_wait_time), he]
  | succ fuel ih =>
    intro i elapsed hfuel hpar hle
    by_cases hlt : elapsed < max_wait_time
    · rw [docPoll, dif_pos hlt, if_neg (h i)]
      exact ih (i + 1) (elapsed + 2) (by omega) (by omega)
        (by unfold max_wait_time at *; omega)
    · have he : elapsed = max_wait_time := by omega
      rw [docPoll, dif_neg hlt, he]

/-- C3: if the polled document-analysis status never reaches a terminal
state, the poll loop (interval 2 time units, ceiling
`max_wait_time = 300`) reports `timedOut` exactly when the elapsed time
reaches the ceiling — at, and not after, 300 time units. -/
theorem doc_poll_timeout (statuses : Nat → List Nat)
    (h : ∀ i, statuses i ∉ docTerminalStatuses) :
    docPoll statuses 0 0 = .timedOut max_wait_time :=
  docPoll_no_terminal statuses h 150 0 0 (by decide) (by decide) (by decide)

theorem doc_poll_timeout_witness :
    docPoll (fun _ => strC "running") 0 0 = .timedOut max_wait_time :=
  doc_poll_timeout (fun _ => strC "running")
    (fun _ => show strC "running" ∉ docTerminalStatuses by decide)

/-! ## Speech poll loop termination condition (claim C4) -/

/-- C4 counterexample: `'Cancelled'` is one of the terminal job
statuses, yet a job whose polled status is always `'Cancelled'` is
never returned by `wait_for_transcription` — after 5 polls the loop is
still polling (`none`), where the claim requires it to have returned at
the very first poll. -/
theorem wait_terminal_counterexample :
    (strC "Cancelled" ∈
      [strC "Succeeded", strC "Failed", strC "Cancelled"]) ∧
    wait_for_transcription
      (fun _ => { status := strC "Cancelled", fileContentUrls := [] }) 5 0 =
        none := by
  exact ⟨by decide, rfl⟩

/-- C4 amended: the speech adapter's poll loop returns the status
response as soon as the polled status is `'Succeeded'` or `'Failed'`;
on any other status — including the terminal `'Cancelled'` — it waits
the 10-second interval and polls again. -/
theorem wait_terminal_amended (statuses : Nat → TransStatus) (fuel i : Nat) :
    (((statuses i).status = strC "Succeeded" ∨
      (statuses i).status = strC "Failed") →
      wait_for_transcription statuses (fuel + 1) i = some (statuses i)) ∧
    ((statuses i).status ≠ strC "Succeeded" →
     (statuses i).status ≠ strC "Failed" →
      wait_for_transcription statuses (fuel + 1) i =
        wait_for_transcription statuses fuel (i + 1)) := by
  constructor
  · rintro (hs | hs) <;> simp [wait_for_transcription, hs]
  · intro hs hf
    simp [wait_for_transcription, hs, hf]

theorem wait_terminal_amended_witness :
    wait_for_transcription
      (fun _ => { status := strC "Succeeded", fileContentUrls := [strC "u"] }) 1 0 =
      some { status := strC "Succeeded", fileContentUrls := [strC "u"] } :=
  (wait_terminal_amended
    (fun _ => { status := strC "Succeeded", fileContentUrls := [strC "u"] }) 0 0).1
    (Or.inl rfl)

/-! ## Speech result extraction (claim C7) -/

/-- C7: when the transcription job reaches `'Succeeded'`, the adapter
fetches the result-file list, takes its first entry, and returns the
`display` text of the first `combinedRecognizedPhrases` entry of that
file's content. -/
theorem speech_success_result (statuses : Nat → TransStatus)
    (fetch : List Nat → TransContent) (fuel : Nat) (fin : TransStatus)
    (hw : wait_for_transcription statuses fuel 0 = some fin)
    (hs : fin.status = strC "Succeeded")
    (f : List Nat) (rest : List (List Nat))
    (hf : fin.fileContentUrls = f :: rest)
    (p : List Nat) (ps : List (List Nat))
    (hp : (fetch f).combinedRecognizedPhrases = p :: ps) :
    speechRunResult statuses fetch fuel = some p := by
  simp [speechRunResult, hw, fetchTranscriptionText, hf, hp]

theorem speech_success_result_witness :
    speechRunResult
      (fun _ => { status := strC "Succeeded", fileContentUrls := [strC "f1"] })
      (fun _ => { combinedRecognizedPhrases := [strC "hello world"] }) 1 =
      some (strC "hello world") :=
  speech_success_result
    (fun _ => { status := strC "Succeeded", fileContentUrls := [strC "f1"] })
    (fun _ => { combinedRecognizedPhrases := [strC "hello world"] }) 1
    { status := strC "Succeeded", fileContentUrls := [strC "f1"] }
    rfl rfl (strC "f1") [] rfl (strC "hello world") [] rfl

/-! ## Redacted-artifact selection (claim C8) -/

/-- C8: the redacted artifact chosen from a completed job's targets is
the first target in list order whose location does not end in
`".json"` (the `List.find?` formulation of the spec); when every
target's location ends in `".json"`, no artifact is selected. -/
theorem redacted_artifact_selection (targets : List DocTarget) :
    findRedacted targets = specFindRedacted targets ∧
    ((∀ t ∈ targets, endsWithJson t.location) → findRedacted targets = none) := by
  constructor
  · induction targets with
    | nil => rfl
    | cons t ts ih =>
      by_cases hj : endsWithJson t.location
      · rw [findRedacted, if_neg (by simp [hj]), ih]
        unfold specFindRedacted
        rw [List.find?_cons_of_neg _ (by simp [hj])]
      · rw [findRedacted, if_pos (by simp [hj])]
        unfold specFindRedacted
        rw [List.find?_cons_of_pos _ (by simp [hj])]
        rfl
  · intro h
    induction targets with
    | nil => rfl
    | cons t ts ih =>
      have ht := h t (List.mem_cons_self t ts)
      rw [findRedacted, if_neg (by simp [ht])]
      exact ih fun x hx => h x (List.mem_cons_of_mem t hx)

theorem redacted_artifact_selection_witness :
    findRedacted [{ location := strC "a.json" }, { location := strC "b.json" }] =
      none :=
  (redacted_artifact_selection
    [{ location := strC "a.json" }, { location := strC "b.json" }]).2 (by decide)

/-! ## HTTP trigger (claim C10) -/

/-- C10 counterexample: the body `[]` is valid JSON, yet the handler
starts no orchestration instance and returns no status-check response —
`body.get("name")` raises an `AttributeError` that no `except` clause
catches, so the request fails with an unhandled error, where the claim
requires exactly one instance and a status-check response for every
valid JSON body. -/
theorem http_trigger_counterexample :
    start_orchestrator_http 0 (some (.jarr [])) = (.pyError, 0) := rfl

/-- C10 amended: a body that is not valid JSON gets a 400 response with
body `"Invalid JSON."` and starts no instance; a body that parses to a
JSON object starts exactly one instance and gets the status-check
response; a body that is valid JSON but not an object raises an
unhandled error and starts no instance. -/
theorem http_trigger_amended (newId : Nat) (parsed : Option PyJson) :
    (parsed = none →
      start_orchestrator_http newId parsed =
        (.plain 400 (strC "Invalid JSON."), 0)) ∧
    (∀ fields, parsed = some (.jobj fields) →
      start_orchestrator_http newId parsed = (.checkStatus newId, 1)) ∧
    ((∀ fields, parsed ≠ some (.jobj fields)) → parsed ≠ none →
      start_orchestrator_http newId parsed = (.pyError, 0)) := by
  refine ⟨?_, ?_, ?_⟩
  · rintro rfl
    rfl
  · rintro fields rfl
    rfl
  · intro hno hnn
    match parsed with
    | none => exact absurd rfl hnn
    | some (.jobj fields) => exact absurd rfl (hno fields)
    | some .jnull => rfl
    | some (.jbool _) => rfl
    | some (.jnum _) => rfl
    | some (.jstr _) => rfl
    | some (.jarr _) => rfl

theorem http_trigger_amended_witness :
    start_orchestrator_http 7 (some (.jobj [("name", .jstr (strC "a.wav"))])) =
      (.checkStatus 7, 1) :=
  (http_trigger_amended 7
    (some (.jobj [("name", .jstr (strC "a.wav"))]))).2.1
    [("name", .jstr (strC "a.wav"))] rfl
